import Mathlib

/-!
Verification development for the astrochat horoscope pipeline.

The Python sources under `app/` are shallowly embedded as Lean definitions:
pure helpers become Lean functions, the Redis-backed response cache becomes an
explicit association-list store with absolute expiry times and an integer
clock (seconds), and the external collaborators (ChromaDB, Gemini, the
IndicTrans2 translator, the Panchang API) become oracle functions carried in a
`World` record.  The orchestrating coroutine
`HoroscopeService.generate_horoscope_direct` becomes a total function from a
world, a store, a clock value and a request to an `Outcome` record that also
reports how many retrieval queries and generation-stage invocations the call
performed.
-/

set_option maxRecDepth 4096

namespace Astro

/-! ## Calendar dates (`datetime.date`) -/

/-- A calendar date, mirroring the `datetime.date` values flowing through the
code (year, month, day). -/
structure Date where
  year : Nat
  month : Nat
  day : Nat
deriving DecidableEq, Repr

/-- Gregorian leap-year rule, as implemented by the Python `datetime`
library that the source calls into. -/
def is_leap (y : Nat) : Bool :=
  (y % 4 == 0 && y % 100 != 0) || y % 400 == 0

/-- Number of days in a month of a given year (proleptic Gregorian). -/
def days_in_month (y m : Nat) : Nat :=
  if m = 2 then (if is_leap y then 29 else 28)
  else if m = 4 ∨ m = 6 ∨ m = 9 ∨ m = 11 then 30
  else 31

/-- Days in the given year strictly before month `m`. -/
def days_before_month (y m : Nat) : Nat :=
  ((List.range (m - 1)).map (fun i => days_in_month y (i + 1))).sum

/-- Days strictly before January 1 of year `y` (year 1 has none). -/
def days_before_year (y : Nat) : Nat :=
  ((List.range (y - 1)).map (fun i => if is_leap (i + 1) then 366 else 365)).sum

/-- Proleptic-Gregorian ordinal of a date, day 0001-01-01 being ordinal 1;
this is `datetime.date.toordinal`. -/
def Date.ordinal (d : Date) : Nat :=
  days_before_year d.year + days_before_month d.year d.month + d.day

/-- `datetime.date.weekday`: Monday is 0 and Sunday is 6.  Ordinal 1
(0001-01-01) is a Monday in the proleptic Gregorian calendar. -/
def Date.weekday (d : Date) : Nat :=
  (d.ordinal + 6) % 7

/-- Zero-pad a number to two digits (`strftime` month/day fields). -/
def pad2 (n : Nat) : String :=
  if n < 10 then "0" ++ toString n else toString n

/-- Zero-pad a number to four digits (`strftime` year field). -/
def pad4 (n : Nat) : String :=
  if n < 10 then "000" ++ toString n
  else if n < 100 then "00" ++ toString n
  else if n < 1000 then "0" ++ toString n
  else toString n

/-- `date.strftime("%Y-%m-%d")`, the birth-date normalisation used for the
cache key in `generate_horoscope_direct`. -/
def format_date_iso (d : Date) : String :=
  pad4 d.year ++ "-" ++ pad2 d.month ++ "-" ++ pad2 d.day

/-- `app.utils.format_date_for_query`: `strftime("%Y%m%d")`. -/
def format_date_for_query (d : Date) : String :=
  pad4 d.year ++ pad2 d.month ++ pad2 d.day

/-- The weekday-name table of `app.utils.get_weekday_name`. -/
def weekdays : List String :=
  ["monday", "tuesday", "wednesday", "thursday", "friday", "saturday", "sunday"]

/-- `app.utils.get_weekday_name`: index the table by `date.weekday()`. -/
def get_weekday_name (d : Date) : String :=
  weekdays.getD d.weekday ""

/-! ## Classifier (`app.utils.calculate_zodiac`) -/

/-- `app.utils.calculate_zodiac`: the fixed (month, day) partition into the
twelve zodiac signs, with the `capricorn` segment wrapping the year
boundary and a final `else` arm returning `pisces`. -/
def calculate_zodiac (birth_date : Date) : String :=
  let month := birth_date.month
  let day := birth_date.day
  if (month = 3 ∧ day ≥ 21) ∨ (month = 4 ∧ day ≤ 19) then "aries"
  else if (month = 4 ∧ day ≥ 20) ∨ (month = 5 ∧ day ≤ 20) then "taurus"
  else if (month = 5 ∧ day ≥ 21) ∨ (month = 6 ∧ day ≤ 21) then "gemini"
  else if (month = 6 ∧ day ≥ 22) ∨ (month = 7 ∧ day ≤ 22) then "cancer"
  else if (month = 7 ∧ day ≥ 23) ∨ (month = 8 ∧ day ≤ 22) then "leo"
  else if (month = 8 ∧ day ≥ 23) ∨ (month = 9 ∧ day ≤ 22) then "virgo"
  else if (month = 9 ∧ day ≥ 23) ∨ (month = 10 ∧ day ≤ 22) then "libra"
  else if (month = 10 ∧ day ≥ 23) ∨ (month = 11 ∧ day ≤ 21) then "scorpio"
  else if (month = 11 ∧ day ≥ 22) ∨ (month = 12 ∧ day ≤ 21) then "sagittarius"
  else if (month = 12 ∧ day ≥ 22) ∨ (month = 1 ∧ day ≤ 19) then "capricorn"
  else if (month = 1 ∧ day ≥ 20) ∨ (month = 2 ∧ day ≤ 18) then "aquarius"
  else "pisces"

/-- The twelve category labels produced by `calculate_zodiac`, in the order
of its branches. -/
def zodiac_signs : List String :=
  ["aries", "taurus", "gemini", "cancer", "leo", "virgo",
   "libra", "scorpio", "sagittarius", "capricorn", "aquarius", "pisces"]

/-- Python `str.lower`, written on the character list so that it evaluates
by structural reduction. -/
def py_lower (s : String) : String :=
  ⟨s.data.map Char.toLower⟩

/-- Python `str.upper`, written on the character list. -/
def py_upper (s : String) : String :=
  ⟨s.data.map Char.toUpper⟩

/-- Python `not text.strip()`: the string is empty or all whitespace. -/
def py_is_blank (s : String) : Bool :=
  s.data.all (fun c => c.isWhitespace)

/-- Python `str.strip`: drop leading and trailing whitespace, written on
the character list. -/
def py_strip (s : String) : String :=
  ⟨(((s.data.dropWhile Char.isWhitespace).reverse.dropWhile Char.isWhitespace).reverse)⟩

/-- Python `str.capitalize`: first character upper-cased, the rest
lower-cased (applied to the zodiac label in step 6 of the orchestrator). -/
def py_capitalize (s : String) : String :=
  match s.data with
  | [] => ""
  | c :: cs => ⟨Char.toUpper c :: cs.map Char.toLower⟩

/-- Python `x or ""` on an optional string: `None` and `""` both give `""`,
anything else gives the string itself (this coincides with `Option.getD`). -/
def py_or_empty (o : Option String) : String :=
  o.getD ""

/-! ## Data model (`app.models` and the ChromaDB row shape) -/

/-- The metadata dict attached to every document ingested by
`ChromaService.load_horoscope_data`: sign, category, date tag and text. -/
structure HoroscopeMetadata where
  sign : String
  category : String
  date : String
  horoscope : String
deriving DecidableEq, Repr

/-- One formatted retrieval result as built by
`ChromaService.query_horoscopes_by_category`: id, metadata and the cosine
distance (modelled as an exact rational). -/
structure RetrievedItem where
  id : String
  metadata : HoroscopeMetadata
  distance : Rat
deriving DecidableEq, Repr

/-- `app.models.PanchangData`: all fields optional. -/
structure PanchangData where
  nakshatra : Option String
  tithi : Option String
  yoga : Option String
  weekday : Option String
deriving DecidableEq, Repr

/-- The `panchang_dict` built in step 4 of the orchestrator, with each value
already rendered the way the query f-string would render it. -/
structure PanchangDict where
  nakshatra : String
  tithi : String
  yoga : String
  weekday : String
deriving DecidableEq, Repr

/-- `app.models.HoroscopeDirectRequest`. -/
structure HoroscopeDirectRequest where
  name : String
  birth_date : Date
  birth_time : Option String
  birth_place : Option String
  language : Option String
deriving DecidableEq, Repr

/-- `app.models.HoroscopeDirectResponse`: the complete deliverable. -/
structure HoroscopeDirectResponse where
  zodiac : String
  insight : String
  language : String
deriving DecidableEq, Repr

/-! ## Cache service (`app.services.cache_service.CacheService`)

The Redis store is modelled as an association list from keys to values with
an absolute expiry instant; time is an abstract clock counted in seconds,
matching `cache_ttl = settings.cache_ttl_minutes * 60`.  Redis `SETEX`
replaces the value under the key and arms its expiry `ttl` seconds from now;
`GET` returns the value while the clock is strictly below the expiry instant
and nothing afterwards. -/

/-- The JSON document stored by `cache_response`: the response fields plus
the `cached_at` timestamp and `cache_ttl_minutes` it adds. -/
structure CachedResponse where
  zodiac : String
  insight : String
  language : String
  cached_at : String
  cache_ttl_minutes : Nat
deriving DecidableEq, Repr

/-- The external key-value store: entries are (key, document, expiry). -/
structure Store where
  entries : List (String × CachedResponse × Nat)
deriving DecidableEq, Repr

/-- Redis `GET` at clock `now`: the live value under `k`, if any. -/
def Store.get (s : Store) (now : Nat) (k : String) : Option CachedResponse :=
  match s.entries.find? (fun e => e.1 == k) with
  | some e => if now < e.2.2 then some e.2.1 else none
  | none => none

/-- Redis `SETEX` at clock `now`: replace the value under `k` and arm its
expiry `ttlSeconds` from now. -/
def Store.setex (s : Store) (k : String) (ttlSeconds : Nat) (v : CachedResponse)
    (now : Nat) : Store :=
  ⟨(k, v, now + ttlSeconds) :: s.entries.filter (fun e => !(e.1 == k))⟩

/-- `datetime.now().isoformat()` under the abstract integer clock: an opaque
textual rendering of the instant. -/
def iso_timestamp (now : Nat) : String :=
  toString now

/-- `CacheService._generate_cache_key`: md5 over the fixed
underscore-delimited concatenation of the four identity fields, prefixed
with the `horoscope:` namespace.  The md5 hex digest itself is an external
primitive, so it is a parameter; every theorem that needs collision-freedom
assumes it injective. -/
def generate_cache_key (md5hex : String → String)
    (user_name birth_date birth_time birth_place : String) : String :=
  "horoscope:" ++ md5hex (user_name ++ "_" ++ birth_date ++ "_" ++ birth_time ++ "_" ++ birth_place)

/-- The behaviour of every external collaborator the pipeline touches, plus
the relevant configuration of `app.config.settings`. -/
structure World where
  /-- The md5 hex digest primitive used by `_generate_cache_key`. -/
  md5hex : String → String
  /-- `CacheService.redis_client` is not `None`. -/
  redisAvailable : Bool
  /-- Redis operations succeed (a `False` models the exception paths that
  `get_cached_response` and `cache_response` catch). -/
  storeWorks : Bool
  /-- `settings.cache_ttl_minutes`. -/
  cacheTtlMinutes : Nat
  /-- `HoroscopeService.chroma_service` was set during startup. -/
  chromaAvailable : Bool
  /-- `collection.query(query_texts=[t], n_results=n, where={"sign": z})`:
  given the query text, the sign filter and `n_results`, either the
  id/metadata/distance rows of the reply or `none` for a raised error. -/
  chromaQuery : String → String → Nat → Option (List (String × HoroscopeMetadata × Rat))
  /-- `PanchangService.is_available()`: both URL and key configured. -/
  panchangConfigured : Bool
  /-- `GeminiService.client` was initialised. -/
  geminiClient : Bool
  /-- The Gemini API call on a prompt: `none` models an exception or an
  empty reply, `some t` the stripped response text. -/
  gemini : String → Option String
  /-- `HoroscopeService.translation_service` was set during startup. -/
  translatorSet : Bool
  /-- `TranslationService.is_initialized`: the model loaded. -/
  translatorLoaded : Bool
  /-- The IndicTrans2 run on (text, full target code): `none` models a
  failure of both the main attempt and the retry. -/
  translate : String → String → Option String

/-- `CacheService.get_cached_response`: `None` when the client is missing or
the store errors, otherwise the live entry under the derived key. -/
def get_cached_response (w : World) (s : Store) (now : Nat)
    (user_name birth_date birth_time birth_place : String) : Option CachedResponse :=
  if w.redisAvailable then
    if w.storeWorks then
      s.get now (generate_cache_key w.md5hex user_name birth_date birth_time birth_place)
    else none
  else none

/-- `CacheService.cache_response`: `SETEX` the response extended with the
`cached_at` timestamp and the configured TTL; `False` (and an unchanged
store) when the client is missing or the store errors, `True` otherwise. -/
def cache_response (w : World) (s : Store) (now : Nat)
    (user_name birth_date birth_time birth_place : String)
    (resp : HoroscopeDirectResponse) : Bool × Store :=
  if w.redisAvailable then
    if w.storeWorks then
      let cache_key := generate_cache_key w.md5hex user_name birth_date birth_time birth_place
      let entry : CachedResponse :=
        ⟨resp.zodiac, resp.insight, resp.language, iso_timestamp now, w.cacheTtlMinutes⟩
      (true, s.setex cache_key (w.cacheTtlMinutes * 60) entry now)
    else (false, s)
  else (false, s)

/-! ## Retrieval (`app.services.chroma_service.ChromaService`) -/

/-- The query text built by `query_horoscopes_by_category`: the basic form
without Panchang data and the enhanced form with the three Panchang tags
appended as free text. -/
def build_query_text (zodiac category : String) (query_date : Date)
    (panchang : Option PanchangDict) : String :=
  let formatted_date := format_date_for_query query_date
  let weekday := get_weekday_name query_date
  match panchang with
  | some p =>
      "zodiac " ++ zodiac ++ " category " ++ category ++ " date " ++ formatted_date ++
        " " ++ weekday ++ " " ++ p.nakshatra ++ " " ++ p.tithi ++ " " ++ p.yoga
  | none =>
      "zodiac " ++ zodiac ++ " category " ++ category ++ " date " ++ formatted_date ++
        " " ++ weekday

/-- `ChromaService.query_horoscopes_by_category`: build the query text,
issue one collection query filtered by `where sign = zodiac` asking for
`n_results` items, and format the reply rows into result dicts; any raised
error is caught and yields the empty list. -/
def query_horoscopes_by_category
    (query : String → String → Nat → Option (List (String × HoroscopeMetadata × Rat)))
    (zodiac category : String) (query_date : Date)
    (panchang : Option PanchangDict) (n_results : Nat) : List RetrievedItem :=
  let query_text := build_query_text zodiac category query_date panchang
  match query query_text zodiac n_results with
  | some rows => rows.map (fun r => ⟨r.1, r.2.1, r.2.2⟩)
  | none => []

/-- The fixed topic list of step 4 of the orchestrator. -/
def categories : List String :=
  ["general", "love", "career", "health", "money"]

/-- The per-topic retrieval loop of step 4: query each topic in order with
`n_results=2` and extend one accumulator list with each reply. -/
def aggregate_categories
    (query : String → String → Nat → Option (List (String × HoroscopeMetadata × Rat)))
    (zodiac : String) (query_date : Date) (panchang : Option PanchangDict) :
    List RetrievedItem :=
  categories.foldl
    (fun acc c => acc ++ query_horoscopes_by_category query zodiac c query_date panchang 2)
    []

/-- One collection query as issued to the search collaborator: the query
text, the exact-match sign filter of the `where` clause, and `n_results`. -/
structure ChromaCall where
  query_text : String
  where_sign : String
  n_results : Nat
deriving DecidableEq, Repr

/-- The retrieval loop instrumented with the sequence of collection queries
it issues (the loop body performs exactly one query per topic). -/
def aggregate_categories_traced
    (query : String → String → Nat → Option (List (String × HoroscopeMetadata × Rat)))
    (zodiac : String) (query_date : Date) (panchang : Option PanchangDict) :
    List RetrievedItem × List ChromaCall :=
  categories.foldl
    (fun acc c =>
      (acc.1 ++ query_horoscopes_by_category query zodiac c query_date panchang 2,
       acc.2 ++ [⟨build_query_text zodiac c query_date panchang, zodiac, 2⟩]))
    ([], [])

/-! ## Synthesis composer (`app.services.gemini_service.GeminiService`) -/

/-- Zero-pad to three digits (the fractional part of a score rendering). -/
def pad3 (n : Nat) : String :=
  if n < 10 then "00" ++ toString n
  else if n < 100 then "0" ++ toString n
  else toString n

/-- Fixed-point rendering of the relevance score with three decimals,
modelling the `:.3f` formatting of the float score as exact rational
rounding (the text feeds only the generation prompt). -/
def format3 (q : Rat) : String :=
  let n : Int := (q * 1000 + 1 / 2).floor
  if n < 0 then "-" ++ toString (n.natAbs / 1000) ++ "." ++ pad3 (n.natAbs % 1000)
  else toString (n.natAbs / 1000) ++ "." ++ pad3 (n.natAbs % 1000)

/-- Python `f"{x}"` on an optional string: `None` renders as `"None"`. -/
def py_str_opt (o : Option String) : String :=
  match o with
  | some s => s
  | none => "None"

/-- `GeminiService._format_retrieved_horoscopes_by_category`: group the
items by category preserving first-occurrence order (a Python dict), render
each group as a header plus enumerated date/score/text lines, append the
summary line, and strip the result. -/
def format_retrieved_horoscopes_by_category (items : List RetrievedItem) : String :=
  let cats := items.foldl
    (fun acc it => if acc.contains it.metadata.category then acc else acc ++ [it.metadata.category])
    ([] : List String)
  let group := fun c => items.filter (fun it => it.metadata.category == c)
  let render_group := fun (entries : List RetrievedItem) =>
    String.join (entries.enum.map (fun p =>
      toString (p.1 + 1) ++ ". Date: " ++ p.2.metadata.date ++ " | Relevance Score: " ++
        format3 (1 - p.2.distance) ++ "\n   Insight: " ++ p.2.metadata.horoscope ++ "\n\n"))
  let body := String.join (cats.map (fun c =>
    "\n=== " ++ py_upper c ++ " HOROSCOPES ===\n" ++ render_group (group c)))
  let total := (cats.map (fun c => (group c).length)).sum
  py_strip (body ++ "\nSUMMARY: Retrieved " ++ toString total ++
    " relevant horoscope entries across " ++ toString cats.length ++ " categories.")

/-- `GeminiService._build_unified_prompt`. -/
def build_unified_prompt (user_name zodiac horoscope_text : String)
    (panchang_data : Option PanchangData) : String :=
  let context :=
    "\nUSER CONTEXT:\n- Name: " ++ user_name ++ "\n- Zodiac Sign: " ++ zodiac ++ "\n"
  let context :=
    match panchang_data with
    | some p =>
        context ++ "- Current Panchang: Nakshatra: " ++ py_str_opt p.nakshatra ++
          ", Tithi: " ++ py_str_opt p.tithi ++ ", Yoga: " ++ py_str_opt p.yoga ++ "\n"
    | none => context
  "You are an expert astrologer and horoscope writer with deep knowledge of Vedic astrology and Western zodiac systems. You specialize in creating personalized, insightful horoscopes that combine traditional astrological wisdom with modern psychological insights.\n\n"
    ++ context ++
    "\n\nVECTOR QUERY RESULTS (from ChromaDB semantic search):\nBelow are the most relevant horoscope entries retrieved from our database, organized by category. These represent the best matches based on zodiac sign, date, and astrological context:\n\n"
    ++ horoscope_text ++
    "\n\nINSTRUCTIONS FOR USING VECTOR RESULTS:\n1. **Analyze Patterns**: Look for recurring themes, emotions, and guidance across different categories\n2. **Synthesize Insights**: Combine the most relevant elements from general, love, career, health, and money categories\n3. **Maintain Authenticity**: Use the essence of the retrieved horoscopes while making them personal to "
    ++ user_name ++
    "\n4. **Balance Categories**: Ensure the final insight touches on multiple life areas naturally\n5. **Incorporate Panchang**: Subtly weave in the nakshatra, tithi, and yoga influences (if available)\n\nTASK:\nGenerate a **coherent daily horoscope insight** that:\n1. Addresses "
    ++ user_name ++
    " by name and zodiac sign\n2. Synthesizes the best elements from the vector query results\n3. Incorporates Panchang elements naturally and subtly (if available in the given prompt else do not mention it)\n4. Provides specific, actionable guidance for the day\n5. Maintains a warm, encouraging, and positive tone\n6. Is concise (50-80 words) but meaningful\n7. Feels personal and relevant to "
    ++ user_name ++ "\x27s " ++ zodiac ++
    " nature\n\nSTYLE GUIDELINES:\n- Use present tense and direct address\n- Include specific actionable advice\n- Balance optimism with realism\n- Make it feel like a personal message from the stars\n- Avoid generic statements - make it specific to the retrieved insights\n\nReturn only the insight text, no additional formatting or explanations."

/-- `GeminiService._generate_fallback_insight`: the deterministic templated
sentence used whenever generation fails. -/
def fallback_insight (user_name zodiac : String) : String :=
  "Your " ++ zodiac ++
    " energy brings warmth and creativity to everything you do today, " ++
    user_name ++ ". Trust your intuition and let your natural leadership shine through."

/-- `GeminiService._call_gemini`: `None` when the client is missing,
otherwise the oracle outcome of the API call. -/
def call_gemini (w : World) (prompt : String) : Option String :=
  if w.geminiClient then w.gemini prompt else none

/-- `GeminiService.generate_coherent_horoscope`: format the evidence, build
the unified prompt, call Gemini, and fall back to the templated sentence on
a `None` or empty reply (Python truthiness) or on any raised error. -/
def generate_coherent_horoscope (w : World) (user_name zodiac : String)
    (retrieved_horoscopes : List RetrievedItem)
    (panchang_data : Option PanchangData) : String :=
  let horoscope_text := format_retrieved_horoscopes_by_category retrieved_horoscopes
  let prompt := build_unified_prompt user_name zodiac horoscope_text panchang_data
  match call_gemini w prompt with
  | some r => if r = "" then fallback_insight user_name zodiac else r
  | none => fallback_insight user_name zodiac

/-! ## Translation (`app.services.translation_service.TranslationService`) -/

/-- The `supported_languages` mapping from short codes to the full
IndicTrans2 codes. -/
def supported_languages : List (String × String) :=
  [("en", "eng_Latn"), ("hi", "hin_Deva"), ("bn", "ben_Beng"), ("ta", "tam_Taml"),
   ("te", "tel_Telu"), ("mr", "mar_Deva"), ("gu", "guj_Gujr"), ("kn", "kan_Knda"),
   ("ml", "mal_Mlym"), ("pa", "pan_Guru"), ("or", "ory_Orya"), ("as", "asm_Beng")]

/-- `TranslationService.is_language_supported`: case-insensitive membership
in the mapping. -/
def is_language_supported (language_code : String) : Bool :=
  (supported_languages.lookup (py_lower language_code)).isSome

/-- `TranslationService.translate_text`: `None` when the model is not
loaded; empty or whitespace-only text is returned unchanged; an unsupported
code gives `None`; otherwise the oracle outcome of running the model on the
text and the full target code. -/
def translate_text (w : World) (text : String) (target_language : String) : Option String :=
  if w.translatorLoaded then
    if py_is_blank text then some text
    else
      match supported_languages.lookup (py_lower target_language) with
      | some tgt_lang => w.translate text tgt_lang
      | none => none
  else none

/-- `TranslationService.translate_horoscope_response`: `None` on an
unsupported code, a missing insight, or a failed/empty translation;
otherwise the response copy with the insight replaced by the translation and
the language set to the requested code. -/
def translate_horoscope_response (w : World) (response : HoroscopeDirectResponse)
    (target_language : String) : Option HoroscopeDirectResponse :=
  if is_language_supported target_language then
    if response.insight = "" then none
    else
      match translate_text w response.insight target_language with
      | some t => if t = "" then none else some { response with insight := t, language := target_language }
      | none => none
  else none

/-- The normalisation of `request.language` in step 6.5 of the orchestrator:
`request.language.lower() if request.language else "en"` (both a missing
and an empty language fall back to `"en"`). -/
def normalize_target (language : Option String) : String :=
  match language with
  | some l => if l = "" then "en" else py_lower l
  | none => "en"

/-- Step 6.5 of the orchestrator: translate when a non-English language was
requested and the translation service exists, keep the English response when
the attempt fails or the service is missing, and pin `language="en"` on the
English path. -/
def translation_step (w : World) (response : HoroscopeDirectResponse)
    (language : Option String) : HoroscopeDirectResponse :=
  let target := normalize_target language
  if target ≠ "en" then
    if w.translatorSet then
      match translate_horoscope_response w response target with
      | some translated => translated
      | none => response
    else response
  else { response with language := "en" }

/-! ## Panchang (`app.services.panchang_service.PanchangService`) -/

/-- `PanchangService.is_available`: both the API URL and key configured. -/
def panchang_is_available (w : World) : Bool :=
  w.panchangConfigured

/-- `PanchangService.get_panchang_data`: the real API is not implemented, so
the call always returns `None` (unconfigured, unimplemented and error paths
alike). -/
def get_panchang_data (_w : World) (_query_date : Date) : Option PanchangData :=
  none

/-- The `panchang_dict` of step 4, built from the Panchang data when it is
present, with each optional field rendered as the query f-string would. -/
def panchang_to_dict (pd : Option PanchangData) : Option PanchangDict :=
  pd.map (fun p =>
    ⟨py_str_opt p.nakshatra, py_str_opt p.tithi, py_str_opt p.yoga, py_str_opt p.weekday⟩)

/-! ## Orchestrator (`HoroscopeService.generate_horoscope_direct`) -/

/-- The outcome of one orchestration call: the returned value or the raised
error, the store afterwards, and how many retrieval queries and
generation-stage invocations the call performed. -/
structure Outcome where
  result : Except String HoroscopeDirectResponse
  store : Store
  retrievalCalls : Nat
  generationCalls : Nat

/-- The cache key the orchestrator derives for a request: name, birth date
formatted `YYYY-MM-DD`, and birth time and place with `or ""` applied. -/
def cache_lookup_key (w : World) (req : HoroscopeDirectRequest) : String :=
  generate_cache_key w.md5hex req.name (format_date_iso req.birth_date)
    (py_or_empty req.birth_time) (py_or_empty req.birth_place)

/-- Steps 2 to 6.5 of the orchestrator on a cache miss: classify, fetch
Panchang data when configured, aggregate the per-topic retrievals, run the
synthesis composer, build the English response with the capitalised zodiac,
and apply the translation step. -/
def miss_response (w : World) (req : HoroscopeDirectRequest) (query_date : Date) :
    HoroscopeDirectResponse :=
  let zodiac := calculate_zodiac req.birth_date
  let panchang_data :=
    if panchang_is_available w then get_panchang_data w query_date else none
  let panchang_dict := panchang_to_dict panchang_data
  let all_horoscopes := aggregate_categories w.chromaQuery zodiac query_date panchang_dict
  let insight := generate_coherent_horoscope w req.name zodiac all_horoscopes panchang_data
  translation_step w ⟨py_capitalize zodiac, insight, "en"⟩ req.language

/-- `HoroscopeService.generate_horoscope_direct`.  Step 1 looks the identity
up in the cache and on a hit returns the cached fields at once, touching no
later stage.  On a miss, when the Chroma service was never initialised the
call raises; otherwise it runs `miss_response` (steps 2 to 6.5; five topic
queries, one generation-stage run) and writes the final response through to
the cache, ignoring cache-write failures. -/
def generate_horoscope_direct (w : World) (s : Store) (now : Nat)
    (req : HoroscopeDirectRequest) (query_date : Date) : Outcome :=
  let birth_date_str := format_date_iso req.birth_date
  let birth_time_str := py_or_empty req.birth_time
  let birth_place_str := py_or_empty req.birth_place
  match get_cached_response w s now req.name birth_date_str birth_time_str birth_place_str with
  | some cached =>
      { result := .ok ⟨cached.zodiac, cached.insight, cached.language⟩, store := s,
        retrievalCalls := 0, generationCalls := 0 }
  | none =>
      if w.chromaAvailable then
        let response := miss_response w req query_date
        let written := cache_response w s now req.name birth_date_str birth_time_str
          birth_place_str response
        { result := .ok response, store := written.2,
          retrievalCalls := categories.length, generationCalls := 1 }
      else
        { result := .error "ChromaDB service not initialized", store := s,
          retrievalCalls := 0, generationCalls := 0 }

/-! ## Concrete worlds used by the witnesses -/

/-- A world where every collaborator works: identity digest, live Redis,
Chroma returning no rows, Gemini answering a fixed insight, and a loaded
translator answering a fixed Hindi string. -/
def wAllOk : World where
  md5hex := id
  redisAvailable := true
  storeWorks := true
  cacheTtlMinutes := 30
  chromaAvailable := true
  chromaQuery := fun _ _ _ => some []
  panchangConfigured := false
  geminiClient := true
  gemini := fun _ => some "Great day ahead."
  translatorSet := true
  translatorLoaded := true
  translate := fun _ _ => some "नमस्ते"

/-- `wAllOk` with the Gemini client never initialised, so every generation
attempt fails. -/
def wGenFail : World :=
  { wAllOk with geminiClient := false, gemini := fun _ => none }

/-- A fixed English response used by the cache witnesses. -/
def respEn : HoroscopeDirectResponse :=
  ⟨"Leo", "Great day ahead.", "en"⟩

/-- A fixed request used by the orchestrator witnesses. -/
def reqPriya : HoroscopeDirectRequest :=
  ⟨"Priya", ⟨1995, 8, 15⟩, none, none, some "en"⟩

/-- `reqPriya` with Hindi as the requested language. -/
def reqPriyaHi : HoroscopeDirectRequest :=
  { reqPriya with language := some "hi" }

/-- A fixed query date used by the orchestrator witnesses. -/
def qdWitness : Date :=
  ⟨1, 1, 1⟩

/-- A fixed ChromaDB reply row used by the retrieval witnesses. -/
def rowLeo : String × HoroscopeMetadata × Rat :=
  ("leo_20200101_0", ⟨"leo", "general", "2020-01-01", "Good vibes today."⟩, 1 / 10)

/-- An oracle whose call for the `love` topic raises while every other call
returns one row. -/
def queryLoveFails : String → String → Nat → Option (List (String × HoroscopeMetadata × Rat)) :=
  fun query_text _ _ =>
    if query_text = build_query_text "leo" "love" qdWitness none then none else some [rowLeo]

/-! ## Helper lemmas -/

theorem string_append_left_cancel {a b c : String} (h : a ++ b = a ++ c) : b = c := by
  apply String.ext
  have hd := congrArg String.data h
  simp only [String.data_append] at hd
  exact List.append_cancel_left hd

/-- The underscore-delimited concatenations of two field quadruples agree
only when the corresponding fields agree, provided the quadruples differ in
at most one position. -/
theorem concat4_field_eq (n d t p n2 d2 t2 p2 : String)
    (h : n ++ "_" ++ d ++ "_" ++ t ++ "_" ++ p = n2 ++ "_" ++ d2 ++ "_" ++ t2 ++ "_" ++ p2) :
    (d = d2 → t = t2 → p = p2 → n = n2) ∧
    (n = n2 → t = t2 → p = p2 → d = d2) ∧
    (n = n2 → d = d2 → p = p2 → t = t2) ∧
    (n = n2 → d = d2 → t = t2 → p = p2) := by
  have hd := congrArg String.data h
  simp only [String.data_append, List.append_assoc] at hd
  refine ⟨?_, ?_, ?_, ?_⟩
  · rintro rfl rfl rfl
    exact String.ext (List.append_cancel_right hd)
  · rintro rfl rfl rfl
    have h1 := List.append_cancel_left hd
    have h2 := List.append_cancel_left h1
    exact String.ext (List.append_cancel_right h2)
  · rintro rfl rfl rfl
    have h1 := List.append_cancel_left hd
    have h2 := List.append_cancel_left h1
    have h3 := List.append_cancel_left h2
    have h4 := List.append_cancel_left h3
    exact String.ext (List.append_cancel_right h4)
  · rintro rfl rfl rfl
    have h1 := List.append_cancel_left hd
    have h2 := List.append_cancel_left h1
    have h3 := List.append_cancel_left h2
    have h4 := List.append_cancel_left h3
    have h5 := List.append_cancel_left h4
    have h6 := List.append_cancel_left h5
    exact String.ext h6

/-- Equal cache keys pull back to equal pre-image concatenations when the
digest is injective. -/
theorem cache_key_preimage (md5hex : String → String) (hinj : Function.Injective md5hex)
    {n d t p n2 d2 t2 p2 : String}
    (h : generate_cache_key md5hex n d t p = generate_cache_key md5hex n2 d2 t2 p2) :
    n ++ "_" ++ d ++ "_" ++ t ++ "_" ++ p = n2 ++ "_" ++ d2 ++ "_" ++ t2 ++ "_" ++ p2 := by
  unfold generate_cache_key at h
  exact hinj (string_append_left_cancel h)

/-! ## Claims -/

set_option maxHeartbeats 2000000 in
/-- C8: `calculate_zodiac` is a pure total function sending every
(month, day) pair into one of exactly twelve pairwise-distinct,
cyclically-ordered category labels; the capricorn segment wraps the year
boundary (December 22 through January 19); 1990-01-01 is capricorn,
1995-08-15 is leo, and the boundary day month=3, day=21 falls in the later
category aries while March 20 is still pisces.  Every one of the twelve
labels is attained at some calendar date. -/
theorem claim_c8 :
    (∀ y m d : Nat, calculate_zodiac ⟨y, m, d⟩ ∈ zodiac_signs) ∧
    zodiac_signs.Nodup ∧ zodiac_signs.length = 12 ∧
    calculate_zodiac ⟨1990, 1, 1⟩ = "capricorn" ∧
    calculate_zodiac ⟨1995, 8, 15⟩ = "leo" ∧
    calculate_zodiac ⟨2000, 3, 21⟩ = "aries" ∧
    calculate_zodiac ⟨2000, 3, 20⟩ = "pisces" ∧
    calculate_zodiac ⟨2000, 12, 22⟩ = "capricorn" ∧
    calculate_zodiac ⟨2001, 1, 19⟩ = "capricorn" ∧
    calculate_zodiac ⟨2000, 4, 1⟩ = "aries" ∧
    calculate_zodiac ⟨2000, 5, 1⟩ = "taurus" ∧
    calculate_zodiac ⟨2000, 6, 1⟩ = "gemini" ∧
    calculate_zodiac ⟨2000, 7, 1⟩ = "cancer" ∧
    calculate_zodiac ⟨2000, 8, 1⟩ = "leo" ∧
    calculate_zodiac ⟨2000, 9, 1⟩ = "virgo" ∧
    calculate_zodiac ⟨2000, 10, 1⟩ = "libra" ∧
    calculate_zodiac ⟨2000, 11, 1⟩ = "scorpio" ∧
    calculate_zodiac ⟨2000, 12, 1⟩ = "sagittarius" ∧
    calculate_zodiac ⟨2000, 1, 25⟩ = "aquarius" ∧
    calculate_zodiac ⟨2000, 3, 1⟩ = "pisces" := by
  refine ⟨?_, by decide, by decide, rfl, rfl, rfl, rfl, rfl, rfl, rfl, rfl, rfl, rfl, rfl,
    rfl, rfl, rfl, rfl, rfl, rfl⟩
  intro y m d
  simp only [calculate_zodiac]
  split_ifs <;> decide

/-- C2: cache-key derivation is a pure total function of the four normalised
identity fields: equal fields give equal fingerprints, and — assuming the
md5 hex digest injective on the observed inputs — changing any single field
while the other three stay fixed changes the fingerprint. -/
theorem claim_c2 (md5hex : String → String) (hinj : Function.Injective md5hex) :
    (∀ n d t p n2 d2 t2 p2 : String, n = n2 → d = d2 → t = t2 → p = p2 →
        generate_cache_key md5hex n d t p = generate_cache_key md5hex n2 d2 t2 p2) ∧
    (∀ n d t p n2 : String, n ≠ n2 →
        generate_cache_key md5hex n d t p ≠ generate_cache_key md5hex n2 d t p) ∧
    (∀ n d t p d2 : String, d ≠ d2 →
        generate_cache_key md5hex n d t p ≠ generate_cache_key md5hex n d2 t p) ∧
    (∀ n d t p t2 : String, t ≠ t2 →
        generate_cache_key md5hex n d t p ≠ generate_cache_key md5hex n d t2 p) ∧
    (∀ n d t p p2 : String, p ≠ p2 →
        generate_cache_key md5hex n d t p ≠ generate_cache_key md5hex n d t p2) := by
  refine ⟨?_, ?_, ?_, ?_, ?_⟩
  · rintro n d t p _ _ _ _ rfl rfl rfl rfl
    rfl
  · intro n d t p n2 hne h
    exact hne ((concat4_field_eq n d t p n2 d t p (cache_key_preimage md5hex hinj h)).1 rfl rfl rfl)
  · intro n d t p d2 hne h
    exact hne ((concat4_field_eq n d t p n d2 t p (cache_key_preimage md5hex hinj h)).2.1 rfl rfl rfl)
  · intro n d t p t2 hne h
    exact hne ((concat4_field_eq n d t p n d t2 p (cache_key_preimage md5hex hinj h)).2.2.1 rfl rfl rfl)
  · intro n d t p p2 hne h
    exact hne ((concat4_field_eq n d t p n d t p2 (cache_key_preimage md5hex hinj h)).2.2.2 rfl rfl rfl)

/-- Witness for C2 at the identity digest (which is injective) and concrete
identities differing in exactly the name field. -/
theorem claim_c2_witness :
    ("Priya" : String) ≠ "Rahul" ∧
    generate_cache_key id "Priya" "1995-08-15" "" "" ≠ generate_cache_key id "Rahul" "1995-08-15" "" "" :=
  ⟨by decide, (claim_c2 id Function.injective_id).2.1 "Priya" "1995-08-15" "" "" "Rahul" (by decide)⟩

/-- `GET` after `SETEX` under the same key: the stored value while the clock
is below the expiry instant, nothing afterwards. -/
theorem store_get_setex (s : Store) (k : String) (ttl : Nat) (v : CachedResponse)
    (now t : Nat) :
    (s.setex k ttl v now).get t k = if t < now + ttl then some v else none := by
  simp [Store.get, Store.setex, List.find?_cons]

/-- Reading back through the cache service after a successful write: the
entry is visible exactly while the clock is below `now + ttl` seconds. -/
theorem get_cached_response_cache_response (w : World) (s : Store) (now t2 : Nat)
    (n d t p : String) (resp : HoroscopeDirectResponse)
    (hr : w.redisAvailable = true) (hsw : w.storeWorks = true) :
    get_cached_response w (cache_response w s now n d t p resp).2 t2 n d t p =
      if t2 < now + w.cacheTtlMinutes * 60 then
        some ⟨resp.zodiac, resp.insight, resp.language, iso_timestamp now, w.cacheTtlMinutes⟩
      else none := by
  simp [get_cached_response, cache_response, hr, hsw, store_get_setex]

/-- C10: a successful `cache_response` reports `true` and stores the
response with absolute expiry `now` plus the configured TTL (minutes,
converted to seconds), so `get_cached_response` returns the entry at every
instant before the expiry and nothing at any instant after it; when the
client is missing or the store fails, `cache_response` returns `false` with
the store untouched instead of raising. -/
theorem claim_c10 (w : World) (s : Store) (now : Nat) (n d t p : String)
    (resp : HoroscopeDirectResponse)
    (hr : w.redisAvailable = true) (hsw : w.storeWorks = true) :
    (cache_response w s now n d t p resp).1 = true ∧
    (∀ t2, t2 < now + w.cacheTtlMinutes * 60 →
       get_cached_response w (cache_response w s now n d t p resp).2 t2 n d t p =
         some ⟨resp.zodiac, resp.insight, resp.language, iso_timestamp now, w.cacheTtlMinutes⟩) ∧
    (∀ t2, now + w.cacheTtlMinutes * 60 < t2 →
       get_cached_response w (cache_response w s now n d t p resp).2 t2 n d t p = none) ∧
    (∀ (w2 : World) (s2 : Store), w2.redisAvailable = false ∨ w2.storeWorks = false →
       cache_response w2 s2 now n d t p resp = (false, s2)) := by
  refine ⟨by simp [cache_response, hr, hsw], ?_, ?_, ?_⟩
  · intro t2 ht
    rw [get_cached_response_cache_response w s now t2 n d t p resp hr hsw]
    simp [ht]
  · intro t2 ht
    rw [get_cached_response_cache_response w s now t2 n d t p resp hr hsw]
    simp [Nat.not_lt.mpr (Nat.le_of_lt ht)]
  · rintro w2 s2 (h | h) <;> simp [cache_response, h]

/-- Witness for C10: a concrete write at clock 0 with the default 30-minute
TTL is readable at 1799 seconds and gone at 1801 seconds. -/
theorem claim_c10_witness :
    (wAllOk.redisAvailable = true ∧ wAllOk.storeWorks = true) ∧
    (cache_response wAllOk ⟨[]⟩ 0 "Priya" "1995-08-15" "" "" respEn).1 = true ∧
    get_cached_response wAllOk (cache_response wAllOk ⟨[]⟩ 0 "Priya" "1995-08-15" "" "" respEn).2
      1799 "Priya" "1995-08-15" "" "" =
      some ⟨respEn.zodiac, respEn.insight, respEn.language, iso_timestamp 0, wAllOk.cacheTtlMinutes⟩ ∧
    get_cached_response wAllOk (cache_response wAllOk ⟨[]⟩ 0 "Priya" "1995-08-15" "" "" respEn).2
      1801 "Priya" "1995-08-15" "" "" = none := by
  have h := claim_c10 wAllOk ⟨[]⟩ 0 "Priya" "1995-08-15" "" "" respEn rfl rfl
  exact ⟨⟨rfl, rfl⟩, h.1, h.2.1 1799 (by decide), h.2.2.1 1801 (by decide)⟩

/-- The retrieval loop, written as the concatenation of the five per-topic
reply lists in topic order. -/
theorem aggregate_categories_join
    (query : String → String → Nat → Option (List (String × HoroscopeMetadata × Rat)))
    (zodiac : String) (qd : Date) (pd : Option PanchangDict) :
    aggregate_categories query zodiac qd pd =
      (categories.map (fun c => query_horoscopes_by_category query zodiac c qd pd 2)).flatten := by
  simp [aggregate_categories, categories]

/-- C5: each topic query is independent: a failed (raised) per-topic
retrieval call yields the empty list for that topic only, the aggregate is
still the in-order concatenation of all per-topic results, and every
topic's result list appears intact inside the aggregate — the loop itself
never raises (it is a total function). -/
theorem claim_c5
    (query : String → String → Nat → Option (List (String × HoroscopeMetadata × Rat)))
    (zodiac : String) (qd : Date) (pd : Option PanchangDict) :
    (∀ c n, query (build_query_text zodiac c qd pd) zodiac n = none →
       query_horoscopes_by_category query zodiac c qd pd n = []) ∧
    (aggregate_categories query zodiac qd pd =
      (categories.map (fun c => query_horoscopes_by_category query zodiac c qd pd 2)).flatten) ∧
    (∀ c, c ∈ categories →
       query_horoscopes_by_category query zodiac c qd pd 2 <:+:
         aggregate_categories query zodiac qd pd) := by
  refine ⟨?_, aggregate_categories_join query zodiac qd pd, ?_⟩
  · intro c n h
    simp [query_horoscopes_by_category, h]
  · intro c hc
    have hagg : aggregate_categories query zodiac qd pd =
        query_horoscopes_by_category query zodiac "general" qd pd 2 ++
        (query_horoscopes_by_category query zodiac "love" qd pd 2 ++
        (query_horoscopes_by_category query zodiac "career" qd pd 2 ++
        (query_horoscopes_by_category query zodiac "health" qd pd 2 ++
        query_horoscopes_by_category query zodiac "money" qd pd 2))) := by
      simp [aggregate_categories, categories]
    simp only [categories, List.mem_cons, List.not_mem_nil, or_false] at hc
    rcases hc with rfl | rfl | rfl | rfl | rfl
    · exact ⟨[],
        query_horoscopes_by_category query zodiac "love" qd pd 2 ++
        (query_horoscopes_by_category query zodiac "career" qd pd 2 ++
        (query_horoscopes_by_category query zodiac "health" qd pd 2 ++
        query_horoscopes_by_category query zodiac "money" qd pd 2)),
        by rw [hagg]; simp [List.append_assoc]⟩
    · exact ⟨query_horoscopes_by_category query zodiac "general" qd pd 2,
        query_horoscopes_by_category query zodiac "career" qd pd 2 ++
        (query_horoscopes_by_category query zodiac "health" qd pd 2 ++
        query_horoscopes_by_category query zodiac "money" qd pd 2),
        by rw [hagg]; simp [List.append_assoc]⟩
    · exact ⟨query_horoscopes_by_category query zodiac "general" qd pd 2 ++
        query_horoscopes_by_category query zodiac "love" qd pd 2,
        query_horoscopes_by_category query zodiac "health" qd pd 2 ++
        query_horoscopes_by_category query zodiac "money" qd pd 2,
        by rw [hagg]; simp [List.append_assoc]⟩
    · exact ⟨query_horoscopes_by_category query zodiac "general" qd pd 2 ++
        query_horoscopes_by_category query zodiac "love" qd pd 2 ++
        query_horoscopes_by_category query zodiac "career" qd pd 2,
        query_horoscopes_by_category query zodiac "money" qd pd 2,
        by rw [hagg]; simp [List.append_assoc]⟩
    · exact ⟨query_horoscopes_by_category query zodiac "general" qd pd 2 ++
        query_horoscopes_by_category query zodiac "love" qd pd 2 ++
        query_horoscopes_by_category query zodiac "career" qd pd 2 ++
        query_horoscopes_by_category query zodiac "health" qd pd 2, [],
        by rw [hagg]; simp [List.append_assoc]⟩

/-- Witness for C5: with the `love` call failing, that topic contributes
zero results while the `general` topic's results still appear intact in the
aggregate. -/
theorem claim_c5_witness :
    queryLoveFails (build_query_text "leo" "love" qdWitness none) "leo" 2 = none ∧
    query_horoscopes_by_category queryLoveFails "leo" "love" qdWitness none 2 = [] ∧
    query_horoscopes_by_category queryLoveFails "leo" "general" qdWitness none 2 <:+:
      aggregate_categories queryLoveFails "leo" qdWitness none :=
  ⟨rfl,
   (claim_c5 queryLoveFails "leo" qdWitness none).1 "love" 2 rfl,
   (claim_c5 queryLoveFails "leo" qdWitness none).2.2 "general" (by decide)⟩

/-- C9: the retrieval loop issues exactly one collection query per topic, in
the fixed topic order, each carrying the exact-match sign filter and
`n_results = 2`; the query text is exactly the concatenation of the
category label, the topic, the canonical `YYYYMMDD` date, the weekday name
and (when present) the three Panchang tags as free text; a successful reply
is passed through in order, and the aggregate is the concatenation of the
per-topic lists in topic order. -/
theorem claim_c9
    (query : String → String → Nat → Option (List (String × HoroscopeMetadata × Rat)))
    (zodiac : String) (qd : Date) (pd : Option PanchangDict) :
    (aggregate_categories_traced query zodiac qd pd).2 =
      [⟨build_query_text zodiac "general" qd pd, zodiac, 2⟩,
       ⟨build_query_text zodiac "love" qd pd, zodiac, 2⟩,
       ⟨build_query_text zodiac "career" qd pd, zodiac, 2⟩,
       ⟨build_query_text zodiac "health" qd pd, zodiac, 2⟩,
       ⟨build_query_text zodiac "money" qd pd, zodiac, 2⟩] ∧
    (aggregate_categories_traced query zodiac qd pd).1 =
      aggregate_categories query zodiac qd pd ∧
    (∀ c, build_query_text zodiac c qd none =
       "zodiac " ++ zodiac ++ " category " ++ c ++ " date " ++ format_date_for_query qd ++
         " " ++ get_weekday_name qd) ∧
    (∀ c p2, build_query_text zodiac c qd (some p2) =
       "zodiac " ++ zodiac ++ " category " ++ c ++ " date " ++ format_date_for_query qd ++
         " " ++ get_weekday_name qd ++ " " ++ p2.nakshatra ++ " " ++ p2.tithi ++ " " ++ p2.yoga) ∧
    (∀ c rows, query (build_query_text zodiac c qd pd) zodiac 2 = some rows →
       query_horoscopes_by_category query zodiac c qd pd 2 =
         rows.map (fun r => ⟨r.1, r.2.1, r.2.2⟩)) ∧
    aggregate_categories query zodiac qd pd =
      (categories.map (fun c => query_horoscopes_by_category query zodiac c qd pd 2)).flatten := by
  refine ⟨?_, ?_, fun c => rfl, fun c p2 => rfl, ?_,
    aggregate_categories_join query zodiac qd pd⟩
  · simp [aggregate_categories_traced, categories]
  · simp [aggregate_categories_traced, aggregate_categories, categories]
  · intro c rows h
    simp [query_horoscopes_by_category, h]

/-- Witness for C9: the successful-reply conjunct evaluated at the concrete
`general` call of `queryLoveFails`. -/
theorem claim_c9_witness :
    queryLoveFails (build_query_text "leo" "general" qdWitness none) "leo" 2 = some [rowLeo] ∧
    query_horoscopes_by_category queryLoveFails "leo" "general" qdWitness none 2 =
      [⟨rowLeo.1, rowLeo.2.1, rowLeo.2.2⟩] :=
  ⟨rfl,
   (claim_c9 queryLoveFails "leo" qdWitness none).2.2.2.2.1 "general" [rowLeo] rfl⟩

/-- C6: whenever the generation collaborator fails or answers empty on
every prompt, `generate_coherent_horoscope` returns the deterministic
templated fallback sentence, which is never empty and contains both the
user name and the category label as substrings — so synthesis always
produces text for the pipeline to cache and return. -/
theorem claim_c6 (w : World) (user_name zodiac : String)
    (items : List RetrievedItem) (pd : Option PanchangData)
    (hfail : ∀ prompt, call_gemini w prompt = none ∨ call_gemini w prompt = some "") :
    generate_coherent_horoscope w user_name zodiac items pd =
      fallback_insight user_name zodiac ∧
    fallback_insight user_name zodiac ≠ "" ∧
    (∃ a b, fallback_insight user_name zodiac = a ++ (user_name ++ b)) ∧
    (∃ a b, fallback_insight user_name zodiac = a ++ (zodiac ++ b)) := by
  refine ⟨?_, ?_, ?_, ?_⟩
  · simp only [generate_coherent_horoscope]
    rcases hfail (build_unified_prompt user_name zodiac
      (format_retrieved_horoscopes_by_category items) pd) with h | h <;> simp [h]
  · intro hcontra
    have hlen := congrArg String.length hcontra
    simp only [fallback_insight, String.length_append] at hlen
    have h5 : ("Your " : String).length = 5 := rfl
    have h0 : ("" : String).length = 0 := rfl
    rw [h5, h0] at hlen
    omega
  · exact ⟨"Your " ++ zodiac ++ " energy brings warmth and creativity to everything you do today, ",
      ". Trust your intuition and let your natural leadership shine through.",
      by simp [fallback_insight, String.append_assoc]⟩
  · exact ⟨"Your ",
      " energy brings warmth and creativity to everything you do today, " ++ user_name ++
        ". Trust your intuition and let your natural leadership shine through.",
      by simp [fallback_insight, String.append_assoc]⟩

/-- Witness for C6: in the world where Gemini is never available, the
composer produces exactly the templated sentence, which visibly contains
the name and the category label. -/
theorem claim_c6_witness :
    (∀ prompt, call_gemini wGenFail prompt = none ∨ call_gemini wGenFail prompt = some "") ∧
    generate_coherent_horoscope wGenFail "Priya" "leo" [] none =
      "Your leo energy brings warmth and creativity to everything you do today, Priya. Trust your intuition and let your natural leadership shine through." := by
  refine ⟨fun _ => Or.inl rfl, ?_⟩
  rw [(claim_c6 wGenFail "Priya" "leo" [] none (fun _ => Or.inl rfl)).1]
  rfl

/-- C7: the translation gate of step 6.5 follows the decision table.  An
`en` (or absent, or empty) requested language returns the response
unchanged, language pinned to `en`; a non-`en` request with the service
missing or with the attempt failing returns the original English response
unchanged; a successful attempt replaces the insight with the translated
text and the language with the normalised requested code while the zodiac
field stays unchanged.  The gate is a total function, so no translation
failure ever propagates as an error. -/
theorem claim_c7 (w : World) (resp : HoroscopeDirectResponse) (lang : Option String)
    (hen : resp.language = "en") :
    (normalize_target lang = "en" → translation_step w resp lang = resp) ∧
    (normalize_target lang ≠ "en" → w.translatorSet = false →
       translation_step w resp lang = resp) ∧
    (normalize_target lang ≠ "en" → w.translatorSet = true →
       translate_horoscope_response w resp (normalize_target lang) = none →
       translation_step w resp lang = resp) ∧
    (∀ full tr, normalize_target lang ≠ "en" → w.translatorSet = true →
       supported_languages.lookup (py_lower (normalize_target lang)) = some full →
       py_is_blank resp.insight = false → w.translatorLoaded = true →
       w.translate resp.insight full = some tr → tr ≠ "" →
       translation_step w resp lang =
         ⟨resp.zodiac, tr, normalize_target lang⟩) := by
  refine ⟨?_, ?_, ?_, ?_⟩
  · intro h
    obtain ⟨z, i, l⟩ := resp
    simp only at hen
    subst hen
    simp [translation_step, h]
  · intro h hset
    simp [translation_step, h, hset]
  · intro h hset hfail
    simp [translation_step, h, hset, hfail]
  · intro full tr h hset hlk htrim hload htr htr2
    have hins : resp.insight ≠ "" := by
      intro hcontra
      rw [hcontra] at htrim
      exact absurd htrim (by decide)
    have hsupp : is_language_supported (normalize_target lang) = true := by
      simp [is_language_supported, hlk]
    have htext : translate_text w resp.insight (normalize_target lang) = some tr := by
      simp [translate_text, hload, htrim, hlk, htr]
    have hresp : translate_horoscope_response w resp (normalize_target lang) =
        some ⟨resp.zodiac, tr, normalize_target lang⟩ := by
      simp [translate_horoscope_response, hsupp, hins, htext, htr2]
    simp [translation_step, h, hset, hresp]

/-- Witness for C7: a concrete Hindi request against a loaded translator
replaces the insight with the translated text and sets the language to
`hi`, keeping the zodiac. -/
theorem claim_c7_witness :
    respEn.language = "en" ∧
    translation_step wAllOk respEn (some "hi") = ⟨"Leo", "नमस्ते", "hi"⟩ := by
  refine ⟨rfl, ?_⟩
  have h := (claim_c7 wAllOk respEn (some "hi") rfl).2.2.2 "hin_Deva" "नमस्ते"
    (by decide) rfl (by decide) (by decide) rfl rfl (by decide)
  exact h

/-- Step 1 cache hit: the orchestrator returns the cached fields verbatim,
leaves the store untouched and performs no retrieval or generation calls. -/
theorem generate_horoscope_direct_hit (w : World) (s : Store) (now : Nat)
    (req : HoroscopeDirectRequest) (qd : Date) (c : CachedResponse)
    (hc : get_cached_response w s now req.name (format_date_iso req.birth_date)
        (py_or_empty req.birth_time) (py_or_empty req.birth_place) = some c) :
    generate_horoscope_direct w s now req qd =
      { result := .ok ⟨c.zodiac, c.insight, c.language⟩, store := s,
        retrievalCalls := 0, generationCalls := 0 } := by
  simp only [generate_horoscope_direct]
  rw [hc]

/-- Cache miss with the Chroma service available: the orchestrator runs the
full pipeline, returns `miss_response`, writes it through, and performs the
five retrieval queries and one generation-stage run. -/
theorem generate_horoscope_direct_miss (w : World) (s : Store) (now : Nat)
    (req : HoroscopeDirectRequest) (qd : Date)
    (hm : get_cached_response w s now req.name (format_date_iso req.birth_date)
        (py_or_empty req.birth_time) (py_or_empty req.birth_place) = none)
    (hch : w.chromaAvailable = true) :
    generate_horoscope_direct w s now req qd =
      { result := .ok (miss_response w req qd),
        store := (cache_response w s now req.name (format_date_iso req.birth_date)
            (py_or_empty req.birth_time) (py_or_empty req.birth_place)
            (miss_response w req qd)).2,
        retrievalCalls := 5, generationCalls := 1 } := by
  simp only [generate_horoscope_direct]
  rw [hm, hch]
  rfl

/-- Cache miss with the Chroma service never initialised: the orchestrator
raises before any retrieval or generation. -/
theorem generate_horoscope_direct_unavailable (w : World) (s : Store) (now : Nat)
    (req : HoroscopeDirectRequest) (qd : Date)
    (hm : get_cached_response w s now req.name (format_date_iso req.birth_date)
        (py_or_empty req.birth_time) (py_or_empty req.birth_place) = none)
    (hch : w.chromaAvailable = false) :
    generate_horoscope_direct w s now req qd =
      { result := .error "ChromaDB service not initialized", store := s,
        retrievalCalls := 0, generationCalls := 0 } := by
  simp only [generate_horoscope_direct]
  rw [hm, hch]
  rfl

/-- C4: the orchestrator aborts with an error only when the search
collaborator is wholly unavailable (the Chroma service was never set); in
every other world — whatever the cache, Gemini, translation or Panchang
collaborators do — the call returns a complete `HoroscopeDirectResponse`,
and the only error value is the classified
`ChromaDB service not initialized`. -/
theorem claim_c4 (w : World) (s : Store) (now : Nat) (req : HoroscopeDirectRequest)
    (qd : Date) :
    (w.chromaAvailable = true →
       ∃ r, (generate_horoscope_direct w s now req qd).result = Except.ok r) ∧
    (∀ e, (generate_horoscope_direct w s now req qd).result = Except.error e →
       w.chromaAvailable = false ∧ e = "ChromaDB service not initialized") := by
  cases hget : get_cached_response w s now req.name (format_date_iso req.birth_date)
      (py_or_empty req.birth_time) (py_or_empty req.birth_place) with
  | some c =>
      rw [generate_horoscope_direct_hit w s now req qd c hget]
      exact ⟨fun _ => ⟨⟨c.zodiac, c.insight, c.language⟩, rfl⟩,
        fun e he => Except.noConfusion he⟩
  | none =>
      cases hch : w.chromaAvailable with
      | true =>
          rw [generate_horoscope_direct_miss w s now req qd hget hch]
          exact ⟨fun _ => ⟨miss_response w req qd, rfl⟩, fun e he => Except.noConfusion he⟩
      | false =>
          rw [generate_horoscope_direct_unavailable w s now req qd hget hch]
          refine ⟨fun h => absurd h (by decide), fun e he => ?_⟩
          injection he with h
          exact ⟨rfl, h.symm⟩

/-- Witness for C4: in the all-working world the concrete call returns a
complete result. -/
theorem claim_c4_witness :
    ∃ r, (generate_horoscope_direct wAllOk ⟨[]⟩ 0 reqPriya qdWitness).result = Except.ok r :=
  (claim_c4 wAllOk ⟨[]⟩ 0 reqPriya qdWitness).1 rfl

/-- C1: a present, unexpired cache entry makes the orchestrator return the
entry verbatim, touch no later stage and leave the store alone; and after a
first miss call in a world with a working cache, a second call with the
same identity inside the TTL window performs zero retrieval queries and
zero generation runs, keeps the store unchanged, and returns exactly the
first call's result — so both collaborator stages run in at most one of the
two calls. -/
theorem claim_c1 (w : World) (s : Store) (req : HoroscopeDirectRequest) (qd : Date)
    (now1 now2 : Nat) (hr : w.redisAvailable = true) (hsw : w.storeWorks = true)
    (hch : w.chromaAvailable = true)
    (hmiss : get_cached_response w s now1 req.name (format_date_iso req.birth_date)
        (py_or_empty req.birth_time) (py_or_empty req.birth_place) = none)
    (hwin : now2 < now1 + w.cacheTtlMinutes * 60) :
    (∀ (s3 : Store) (now3 : Nat) (c : CachedResponse),
       get_cached_response w s3 now3 req.name (format_date_iso req.birth_date)
           (py_or_empty req.birth_time) (py_or_empty req.birth_place) = some c →
       generate_horoscope_direct w s3 now3 req qd =
         { result := .ok ⟨c.zodiac, c.insight, c.language⟩, store := s3,
           retrievalCalls := 0, generationCalls := 0 }) ∧
    (generate_horoscope_direct w (generate_horoscope_direct w s now1 req qd).store
        now2 req qd).result = (generate_horoscope_direct w s now1 req qd).result ∧
    (generate_horoscope_direct w (generate_horoscope_direct w s now1 req qd).store
        now2 req qd).retrievalCalls = 0 ∧
    (generate_horoscope_direct w (generate_horoscope_direct w s now1 req qd).store
        now2 req qd).generationCalls = 0 ∧
    (generate_horoscope_direct w (generate_horoscope_direct w s now1 req qd).store
        now2 req qd).store = (generate_horoscope_direct w s now1 req qd).store := by
  have h1 := generate_horoscope_direct_miss w s now1 req qd hmiss hch
  have hget2 : get_cached_response w (generate_horoscope_direct w s now1 req qd).store now2
      req.name (format_date_iso req.birth_date) (py_or_empty req.birth_time)
      (py_or_empty req.birth_place) =
      some ⟨(miss_response w req qd).zodiac, (miss_response w req qd).insight,
            (miss_response w req qd).language, iso_timestamp now1, w.cacheTtlMinutes⟩ := by
    simp only [h1]
    rw [get_cached_response_cache_response w s now1 now2 req.name
      (format_date_iso req.birth_date) (py_or_empty req.birth_time)
      (py_or_empty req.birth_place) (miss_response w req qd) hr hsw]
    simp [hwin]
  have h2 := generate_horoscope_direct_hit w
    (generate_horoscope_direct w s now1 req qd).store now2 req qd _ hget2
  refine ⟨fun s3 now3 c hc => generate_horoscope_direct_hit w s3 now3 req qd c hc,
    ?_, ?_, ?_, ?_⟩
  · rw [h2, h1]
  · rw [h2]
  · rw [h2]
  · rw [h2]

/-- Witness for C1: a concrete first call at clock 0 followed by a second
call at clock 60 (inside the 30-minute window) returns the same result with
zero retrieval and generation activity. -/
theorem claim_c1_witness :
    (generate_horoscope_direct wAllOk
        (generate_horoscope_direct wAllOk ⟨[]⟩ 0 reqPriya qdWitness).store
        60 reqPriya qdWitness).result
      = (generate_horoscope_direct wAllOk ⟨[]⟩ 0 reqPriya qdWitness).result ∧
    (generate_horoscope_direct wAllOk
        (generate_horoscope_direct wAllOk ⟨[]⟩ 0 reqPriya qdWitness).store
        60 reqPriya qdWitness).retrievalCalls = 0 ∧
    (generate_horoscope_direct wAllOk
        (generate_horoscope_direct wAllOk ⟨[]⟩ 0 reqPriya qdWitness).store
        60 reqPriya qdWitness).generationCalls = 0 := by
  have h := claim_c1 wAllOk ⟨[]⟩ reqPriya qdWitness 0 60 rfl rfl rfl rfl (by decide)
  exact ⟨h.2.1, h.2.2.1, h.2.2.2.1⟩

/-- C3: the cache key never depends on the requested language, and the
entry cached by a miss call is the post-translation result; hence a second
call whose identity fields agree with the first call's — whatever language
it requests — returns the first call's cached insight and language with no
retrieval or generation activity. -/
theorem claim_c3 (w : World) (s : Store) (qd : Date) (now1 now2 : Nat)
    (req1 req2 : HoroscopeDirectRequest)
    (hname : req2.name = req1.name) (hbd : req2.birth_date = req1.birth_date)
    (hbt : req2.birth_time = req1.birth_time) (hbp : req2.birth_place = req1.birth_place)
    (hr : w.redisAvailable = true) (hsw : w.storeWorks = true)
    (hch : w.chromaAvailable = true)
    (hmiss : get_cached_response w s now1 req1.name (format_date_iso req1.birth_date)
        (py_or_empty req1.birth_time) (py_or_empty req1.birth_place) = none)
    (hwin : now2 < now1 + w.cacheTtlMinutes * 60) :
    cache_lookup_key w req2 = cache_lookup_key w req1 ∧
    (generate_horoscope_direct w (generate_horoscope_direct w s now1 req1 qd).store
        now2 req2 qd).result = (generate_horoscope_direct w s now1 req1 qd).result ∧
    (generate_horoscope_direct w (generate_horoscope_direct w s now1 req1 qd).store
        now2 req2 qd).retrievalCalls = 0 ∧
    (generate_horoscope_direct w (generate_horoscope_direct w s now1 req1 qd).store
        now2 req2 qd).generationCalls = 0 ∧
    (∃ c, get_cached_response w (generate_horoscope_direct w s now1 req1 qd).store now2
        req1.name (format_date_iso req1.birth_date) (py_or_empty req1.birth_time)
        (py_or_empty req1.birth_place) = some c ∧
      Except.ok (⟨c.zodiac, c.insight, c.language⟩ : HoroscopeDirectResponse)
        = (generate_horoscope_direct w s now1 req1 qd).result) := by
  have h1 := generate_horoscope_direct_miss w s now1 req1 qd hmiss hch
  have hget2 : get_cached_response w (generate_horoscope_direct w s now1 req1 qd).store now2
      req1.name (format_date_iso req1.birth_date) (py_or_empty req1.birth_time)
      (py_or_empty req1.birth_place) =
      some ⟨(miss_response w req1 qd).zodiac, (miss_response w req1 qd).insight,
            (miss_response w req1 qd).language, iso_timestamp now1, w.cacheTtlMinutes⟩ := by
    simp only [h1]
    rw [get_cached_response_cache_response w s now1 now2 req1.name
      (format_date_iso req1.birth_date) (py_or_empty req1.birth_time)
      (py_or_empty req1.birth_place) (miss_response w req1 qd) hr hsw]
    simp [hwin]
  have hget2' : get_cached_response w (generate_horoscope_direct w s now1 req1 qd).store now2
      req2.name (format_date_iso req2.birth_date) (py_or_empty req2.birth_time)
      (py_or_empty req2.birth_place) =
      some ⟨(miss_response w req1 qd).zodiac, (miss_response w req1 qd).insight,
            (miss_response w req1 qd).language, iso_timestamp now1, w.cacheTtlMinutes⟩ := by
    rw [hname, hbd, hbt, hbp]
    exact hget2
  have h2 := generate_horoscope_direct_hit w
    (generate_horoscope_direct w s now1 req1 qd).store now2 req2 qd _ hget2'
  refine ⟨by simp only [cache_lookup_key, hname, hbd, hbt, hbp], ?_, ?_, ?_, ?_⟩
  · rw [h2, h1]
  · rw [h2]
  · rw [h2]
  · exact ⟨_, hget2, by rw [h1]⟩

/-- Witness for C3: a first call requesting Hindi caches the translated
response; a second call for the same identity requesting English receives
the cached Hindi insight with language `hi`. -/
theorem claim_c3_witness :
    (generate_horoscope_direct wAllOk
        (generate_horoscope_direct wAllOk ⟨[]⟩ 0 reqPriyaHi qdWitness).store
        60 reqPriya qdWitness).result
      = (generate_horoscope_direct wAllOk ⟨[]⟩ 0 reqPriyaHi qdWitness).result ∧
    (generate_horoscope_direct wAllOk ⟨[]⟩ 0 reqPriyaHi qdWitness).result
      = Except.ok ⟨"Leo", "नमस्ते", "hi"⟩ := by
  have h := claim_c3 wAllOk ⟨[]⟩ qdWitness 0 60 reqPriyaHi reqPriya
    rfl rfl rfl rfl rfl rfl rfl rfl (by decide)
  exact ⟨h.2.1, rfl⟩

end Astro
